import Mathlib

/-!
# Exercise-Tracker API: a shallow embedding

This file embeds the Express/Mongoose exercise-tracker service (two server
variants concatenated in `src/unnamed/part_000`, sharing the schema of
`src/models/User.js`) as pure Lean functions, and settles the frozen claims
about it.

Modelling conventions:
* A Mongo document store is a list of `User` documents; `findById` is
  `List.find?` on `_id`, and a successful `save` of an existing document
  replaces it in place (`saveUser`).
* JS strings are `String`; absent body/query fields are `none`; JS
  truthiness of a string field is `jsTruthy` (absent or `""` is falsy).
* JS numbers reaching the store are `Rat` (the handlers only produce
  decimal values); a possibly-NaN intermediate number is `Option Rat`
  with `none` for NaN.
* JS `Date` values are epoch milliseconds (`Int`); an Invalid Date is
  `none : Option Int`.  `new Date(string)` is modelled by `parseJsDate`
  on ISO `YYYY-MM-DD` / `YYYY-MM-DDTHH:MM:SS` strings (per ECMA-262 a
  date-only form is UTC; the runtime's local zone is taken to be UTC, so
  the date-time form coincides);  every other string is modelled as
  unparseable.  `Date.prototype.toDateString` is implemented exactly
  (`toDateString`), via the standard civil-from-days conversion.
* Mongoose cast validation at `save` for the schema
  `{description: String required, duration: Number required, date: Date required}`:
  a pushed sub-document whose `duration` is NaN or whose `date` is an
  Invalid Date makes `save` throw a cast error, which the handlers catch
  and report as a 500; `castExercise` models that cast.
-/

namespace ExerciseTracker

/-! ## JS string primitives -/

/-- Whitespace for the purposes of JS `String.prototype.trim` (the common
ASCII subset used by the handlers). -/
def jsWhitespaceChar (c : Char) : Bool :=
  c = ' ' || c = '\t' || c = '\n' || c = '\r'

/-- List `l` with leading and trailing whitespace characters removed. -/
def trimCharList (l : List Char) : List Char :=
  (((l.dropWhile jsWhitespaceChar).reverse.dropWhile jsWhitespaceChar)).reverse

/-- JS `s.trim()`. -/
def jsTrim (s : String) : String :=
  ⟨trimCharList s.data⟩

/-- JS truthiness of an optional string field: `undefined` and `""` are
falsy, every other string is truthy. -/
def jsTruthy : Option String → Bool
  | none => false
  | some s => !(s == "")

/-- Numeric value of a decimal digit character. -/
def digitVal (c : Char) : Nat := c.toNat - 48

/-- Value of a list of decimal digit characters, most significant first. -/
def digitsVal (l : List Char) : Nat :=
  l.foldl (fun acc c => 10 * acc + digitVal c) 0

/-- JS `parseInt(s)` (decimal form): skip leading whitespace, optional
sign, then the longest leading run of digits; `none` models `NaN` (no
digits).  The hexadecimal `0x` form never arises in this service. -/
def jsParseInt (s : String) : Option Int :=
  let cs := s.data.dropWhile jsWhitespaceChar
  let signAndRest : Int × List Char :=
    match cs with
    | '-' :: rest => (-1, rest)
    | '+' :: rest => (1, rest)
    | _ => (1, cs)
  let ds := signAndRest.2.takeWhile Char.isDigit
  if ds.isEmpty then none
  else some (signAndRest.1 * (digitsVal ds : Int))

/-- JS `Number(s)` on the decimal fragment the service can receive:
whitespace-trimmed; `""` converts to `0`; optional sign; digits with an
optional fractional part.  `none` models `NaN`.  (Exponent, hex and
`Infinity` forms never arise here.) -/
def jsNumber (s : String) : Option Rat :=
  let cs := trimCharList s.data
  if cs.isEmpty then some 0
  else
    let signAndRest : Int × List Char :=
      match cs with
      | '-' :: rest => (-1, rest)
      | '+' :: rest => (1, rest)
      | _ => (1, cs)
    let intPart := signAndRest.2.takeWhile Char.isDigit
    let rest := signAndRest.2.dropWhile Char.isDigit
    match rest with
    | [] =>
      if intPart.isEmpty then none
      else some ((signAndRest.1 * (digitsVal intPart : Int) : Int) : Rat)
    | '.' :: fracRest =>
      let fracPart := fracRest.takeWhile Char.isDigit
      if !(fracRest.dropWhile Char.isDigit).isEmpty then none
      else if intPart.isEmpty && fracPart.isEmpty then none
      else
        let num : Int :=
          signAndRest.1 * ((digitsVal intPart * 10 ^ fracPart.length + digitsVal fracPart : Nat) : Int)
        some (mkRat num (10 ^ fracPart.length))
    | _ => none

/-- Truncation toward zero, JS `ToIntegerOrInfinity` on a finite number. -/
def ratTrunc (q : Rat) : Int := q.num.tdiv (q.den : Int)

/-- JS `ToIntegerOrInfinity` as used by `Array.prototype.slice` on a
possibly-NaN number: NaN becomes `0`, otherwise truncate toward zero. -/
def jsToIntegerOrZero : Option Rat → Int
  | none => 0
  | some q => ratTrunc q

/-- JS `l.slice(0, e)` with an already-converted integer end index `e`
(negative `e` counts from the end, clamped at `0`). -/
def jsSlice0 {α : Type} (l : List α) (e : Int) : List α :=
  l.take (if e < 0 then max ((l.length : Int) + e) 0 else min e (l.length : Int)).toNat

/-! ## Dates: `new Date(string)` and `toDateString` -/

/-- One day in milliseconds. -/
def dayMs : Int := 86400000

/-- Gregorian leap year. -/
def isLeapYear (y : Int) : Bool :=
  (y.emod 4 == 0 && y.emod 100 != 0) || y.emod 400 == 0

/-- Number of days of month `m` (1–12) in year `y`. -/
def daysInMonth (y : Int) (m : Nat) : Nat :=
  match m with
  | 1 => 31
  | 2 => if isLeapYear y then 29 else 28
  | 3 => 31
  | 4 => 30
  | 5 => 31
  | 6 => 30
  | 7 => 31
  | 8 => 31
  | 9 => 30
  | 10 => 31
  | 11 => 30
  | 12 => 31
  | _ => 0

/-- Days since the Unix epoch of the civil date `(y, m, d)` (standard
civil-from-days companion; floor division). -/
def daysFromCivil (y m d : Int) : Int :=
  let y' := if m ≤ 2 then y - 1 else y
  let era := y'.fdiv 400
  let yoe := y' - era * 400
  let mp := if m > 2 then m - 3 else m + 9
  let doy := (153 * mp + 2).fdiv 5 + d - 1
  let doe := yoe * 365 + yoe.fdiv 4 - yoe.fdiv 100 + doy
  era * 146097 + doe - 719468

/-- Civil date `(y, m, d)` of a count of days since the Unix epoch
(standard days-from-civil inverse; floor division). -/
def civilFromDays (z : Int) : Int × Int × Int :=
  let z' := z + 719468
  let era := z'.fdiv 146097
  let doe := z' - era * 146097
  let yoe := (doe - doe.fdiv 1460 + doe.fdiv 36524 - doe.fdiv 146096).fdiv 365
  let y := yoe + era * 400
  let doy := doe - (365 * yoe + yoe.fdiv 4 - yoe.fdiv 100)
  let mp := (5 * doy + 2).fdiv 153
  let d := doy - (153 * mp + 2).fdiv 5 + 1
  let m := if mp < 10 then mp + 3 else mp - 9
  (if m ≤ 2 then y + 1 else y, m, d)

/-- Three-letter weekday name of an epoch day count (day 0, 1970-01-01,
was a Thursday). -/
def weekdayName (z : Int) : String :=
  match ((z + 4).emod 7).toNat with
  | 0 => "Sun"
  | 1 => "Mon"
  | 2 => "Tue"
  | 3 => "Wed"
  | 4 => "Thu"
  | 5 => "Fri"
  | _ => "Sat"

/-- Three-letter month name, `m` in 1–12. -/
def monthName (m : Int) : String :=
  match m with
  | 1 => "Jan"
  | 2 => "Feb"
  | 3 => "Mar"
  | 4 => "Apr"
  | 5 => "May"
  | 6 => "Jun"
  | 7 => "Jul"
  | 8 => "Aug"
  | 9 => "Sep"
  | 10 => "Oct"
  | 11 => "Nov"
  | _ => "Dec"

/-- Day of month, zero-padded to two digits as `toDateString` prints it. -/
def pad2 (d : Int) : String :=
  if d < 10 then "0" ++ toString d else toString d

/-- JS `date.toDateString()` for a valid date of `t` epoch milliseconds,
e.g. `"Sun Jan 15 2023"` (runtime local zone taken as UTC). -/
def toDateString (t : Int) : String :=
  let z := t.fdiv dayMs
  let ymd := civilFromDays z
  weekdayName z ++ " " ++ monthName ymd.2.1 ++ " " ++ pad2 ymd.2.2 ++ " " ++ toString ymd.1

/-- Epoch milliseconds of `y-m-d` at `tod` milliseconds past UTC midnight. -/
def civilMs (y m d tod : Int) : Int :=
  daysFromCivil y m d * dayMs + tod

/-- JS `new Date(s)` on the string forms this service receives:
`YYYY-MM-DD` (ECMA-262 date-only form, UTC midnight) and
`YYYY-MM-DDTHH:MM:SS` (with the runtime zone taken as UTC), with
calendar-validity checking as V8 performs for the ISO format; every
other string maps to `none` (Invalid Date). -/
def parseJsDate (s : String) : Option Int :=
  match s.data with
  | [y1, y2, y3, y4, '-', m1, m2, '-', d1, d2] =>
    if [y1, y2, y3, y4, m1, m2, d1, d2].all Char.isDigit then
      let y := (digitsVal [y1, y2, y3, y4] : Int)
      let m := digitsVal [m1, m2]
      let d := digitsVal [d1, d2]
      if 1 ≤ m && m ≤ 12 && 1 ≤ d && d ≤ daysInMonth y m then
        some (civilMs y (m : Int) (d : Int) 0)
      else none
    else none
  | [y1, y2, y3, y4, '-', m1, m2, '-', d1, d2, 'T', h1, h2, ':', i1, i2, ':', s1, s2] =>
    if [y1, y2, y3, y4, m1, m2, d1, d2, h1, h2, i1, i2, s1, s2].all Char.isDigit then
      let y := (digitsVal [y1, y2, y3, y4] : Int)
      let m := digitsVal [m1, m2]
      let d := digitsVal [d1, d2]
      let hh := digitsVal [h1, h2]
      let mi := digitsVal [i1, i2]
      let ss := digitsVal [s1, s2]
      if 1 ≤ m && m ≤ 12 && 1 ≤ d && d ≤ daysInMonth y m
          && hh ≤ 23 && mi ≤ 59 && ss ≤ 59 then
        some (civilMs y (m : Int) (d : Int) ((((hh * 60 + mi) * 60 + ss) * 1000 : Nat) : Int))
      else none
    else none
  | _ => none

/-- JS `>=` between a valid stored date and a possibly-invalid parsed
bound: a comparison against NaN is false. -/
def jsGeB (t : Int) (bound : Option Int) : Bool :=
  match bound with
  | some b => b ≤ t
  | none => false

/-- JS `<=` between a valid stored date and a possibly-invalid parsed
bound: a comparison against NaN is false. -/
def jsLeB (t : Int) (bound : Option Int) : Bool :=
  match bound with
  | some b => t ≤ b
  | none => false

/-! ## Data model (schema of `src/models/User.js`) -/

/-- A persisted exercise sub-document: its fields have passed the
mongoose casts for `String`/`Number`/`Date`, so the duration is a real
(possibly fractional) number and the date a valid timestamp. -/
structure Exercise where
  description : String
  duration : Rat
  date : Int
deriving DecidableEq, Repr

/-- A persisted user document. -/
structure User where
  _id : String
  username : String
  log : List Exercise
deriving DecidableEq, Repr

/-- The Mongo collection backing the service. -/
abbrev Store := List User

/-- Mongoose `User.findById`: first document with the given `_id`. -/
def findById (store : Store) (id : String) : Option User :=
  List.find? (fun u => u._id == id) store

/-- Mongoose `user.save()` on an already-persisted document: replaces the
document with that `_id`. -/
def saveUser (store : Store) (u : User) : Store :=
  List.map (fun v => if v._id == u._id then u else v) store

/-- A hexadecimal digit character. -/
def isHexChar (c : Char) : Bool :=
  c.isDigit || ('a' ≤ c && c ≤ 'f') || ('A' ≤ c && c ≤ 'F')

/-- Mongoose `Types.ObjectId.isValid`: a 24-character hex string, or any
12-character string (interpreted as raw bytes). -/
def isValidObjectId (s : String) : Bool :=
  s.length == 12 || (s.length == 24 && s.data.all isHexChar)

/-- An exercise as built by a handler before `save`: the duration may be
NaN (`none`) and the date an Invalid Date (`none`). -/
structure ExercisePending where
  description : String
  duration : Option Rat
  date : Option Int

/-- The mongoose cast applied at `save` to a pushed sub-document under
the schema `{duration: Number required, date: Date required}`: NaN
durations and Invalid Dates fail the cast (the save throws, and the
handlers report 500). -/
def castExercise (e : ExercisePending) : Option Exercise :=
  match e.duration, e.date with
  | some q, some t => some ⟨e.description, q, t⟩
  | _, _ => none

/-! ## Response shapes -/

/-- Body of a successful create-user response. -/
structure UserOut where
  _id : String
  username : String
deriving DecidableEq, Repr

/-- Create-user response: `ok` carries the HTTP status (200 in the first
variant, 201 in the second) and body; `err` a status and error message. -/
inductive CreateResp
  | ok (status : Nat) (body : UserOut)
  | err (status : Nat) (msg : String)
deriving DecidableEq, Repr

/-- HTTP status of a create-user response. -/
def CreateResp.statusOf : CreateResp → Nat
  | .ok s _ => s
  | .err s _ => s

/-- Create-user outcome: response plus the resulting store. -/
structure CreateResult where
  resp : CreateResp
  store : Store
deriving DecidableEq, Repr

/-- Body of a successful add-exercise response. -/
structure ExerciseOut where
  _id : String
  username : String
  description : String
  duration : Rat
  date : String
deriving DecidableEq, Repr

/-- Add-exercise response. -/
inductive ExResp
  | ok (status : Nat) (body : ExerciseOut)
  | err (status : Nat) (msg : String)
deriving DecidableEq, Repr

/-- HTTP status of an add-exercise response. -/
def ExResp.statusOf : ExResp → Nat
  | .ok s _ => s
  | .err s _ => s

/-- Add-exercise outcome: response plus the resulting store. -/
structure ExResult where
  resp : ExResp
  store : Store
deriving DecidableEq, Repr

/-- One formatted entry of a get-logs response. -/
structure LogEntryOut where
  description : String
  duration : Rat
  date : String
deriving DecidableEq, Repr

/-- Body of a successful get-logs response. -/
structure LogsOut where
  _id : String
  username : String
  count : Nat
  log : List LogEntryOut
deriving DecidableEq, Repr

/-- Get-logs response. -/
inductive LogsResp
  | ok (body : LogsOut)
  | err (status : Nat) (msg : String)
deriving DecidableEq, Repr

/-- HTTP status of a get-logs response (success is 200). -/
def LogsResp.statusOf : LogsResp → Nat
  | .ok _ => 200
  | .err s _ => s

/-- Get-logs outcome: response plus the resulting store (the handler
only reads, but we thread the store to state frame properties). -/
structure LogsResult where
  resp : LogsResp
  store : Store
deriving DecidableEq, Repr

/-! ## Handlers, first variant (`src/unnamed/part_000` lines 55–216) -/

/-- Handler `POST /api/users`, first variant (lines 55–78): rejects an absent or
whitespace-only username with 400, otherwise saves the trimmed username;
`freshId` is the ObjectId the driver assigns to the new document. -/
def createUser (store : Store) (freshId : String) (username : Option String) : CreateResult :=
  if !jsTruthy username || jsTrim (username.getD "") == "" then
    ⟨.err 400 "Username is required", store⟩
  else
    let uname := jsTrim (username.getD "")
    ⟨.ok 200 ⟨freshId, uname⟩, store ++ [⟨freshId, uname, []⟩]⟩

/-- Handler `POST /api/users/:_id/exercises`, first variant (lines 102–154):
field presence check, ObjectId format check, existence check, date
parse/validity check, then `parseInt` of the duration, push and save. -/
def addExercise (store : Store) (now : Int) (userId : String)
    (description duration date : Option String) : ExResult :=
  if !jsTruthy description || !jsTruthy duration then
    ⟨.err 400 "Description and duration are required", store⟩
  else if !isValidObjectId userId then
    ⟨.err 400 "Invalid user ID format", store⟩
  else
    match findById store userId with
    | none => ⟨.err 404 "User not found", store⟩
    | some user =>
      match (if jsTruthy date && !(jsTrim (date.getD "") == "") then
               parseJsDate (date.getD "")
             else some now) with
      | none => ⟨.err 400 "Invalid date format", store⟩
      | some t =>
        match castExercise
            ⟨description.getD "", (jsParseInt (duration.getD "")).map (fun n => (n : Rat)),
              some t⟩ with
        | none => ⟨.err 500 "Exercise validation failed: duration: Cast to Number failed", store⟩
        | some ex =>
          ⟨.ok 200 ⟨user._id, user.username, ex.description, ex.duration, toDateString t⟩,
            saveUser store ⟨user._id, user.username, user.log ++ [ex]⟩⟩

/-- The `from` filter of the first get-logs variant (lines 178–183): the
filter applies only when `from` is truthy and parses to a valid date. -/
def applyFrom (logs : List Exercise) (fromQ : Option String) : List Exercise :=
  if jsTruthy fromQ then
    match parseJsDate (fromQ.getD "") with
    | some f => logs.filter (fun e => f ≤ e.date)
    | none => logs
  else logs

/-- The `to` filter of the first get-logs variant (lines 185–190). -/
def applyTo (logs : List Exercise) (toQ : Option String) : List Exercise :=
  if jsTruthy toQ then
    match parseJsDate (toQ.getD "") with
    | some t => logs.filter (fun e => e.date ≤ t)
    | none => logs
  else logs

/-- The `limit` truncation of the first get-logs variant (lines
193–195): applied only when `limit` is truthy and `parseInt` succeeds. -/
def applyLimit (logs : List Exercise) (limitQ : Option String) : List Exercise :=
  if jsTruthy limitQ then
    match jsParseInt (limitQ.getD "") with
    | some n => jsSlice0 logs n
    | none => logs
  else logs

/-- Response formatting of the first get-logs variant (lines 198–202):
`duration: parseInt(exercise.duration)` truncates a stored number. -/
def formatEntry (e : Exercise) : LogEntryOut :=
  ⟨e.description, (ratTrunc e.duration : Rat), toDateString e.date⟩

/-- Handler `GET /api/users/:_id/logs`, first variant (lines 157–216). -/
def getLogs (store : Store) (userId : String)
    (fromQ toQ limitQ : Option String) : LogsResult :=
  if !isValidObjectId userId then
    ⟨.err 400 "Invalid user ID format", store⟩
  else
    match findById store userId with
    | none => ⟨.err 404 "User not found", store⟩
    | some user =>
      let logs := applyLimit (applyTo (applyFrom user.log fromQ) toQ) limitQ
      let formattedLogs := logs.map formatEntry
      ⟨.ok ⟨user._id, user.username, formattedLogs.length, formattedLogs⟩, store⟩

/-! ## Handlers, second variant (`src/unnamed/part_000` lines 259–386) -/

/-- Handler `POST /api/users`, second variant (lines 259–278): only rejects an
absent or empty username; the stored username is not trimmed. -/
def createUser2 (store : Store) (freshId : String) (username : Option String) : CreateResult :=
  if !jsTruthy username then
    ⟨.err 400 "Username is required", store⟩
  else
    let uname := username.getD ""
    ⟨.ok 201 ⟨freshId, uname⟩, store ++ [⟨freshId, uname, []⟩]⟩

/-- Handler `POST /api/users/:_id/exercises`, second variant (lines 292–333):
same field/format/existence checks, but no date-validity check — an
unparseable date reaches `save`, whose Date cast throws (caught as 500);
the duration is converted with `Number`, not `parseInt`. -/
def addExercise2 (store : Store) (now : Int) (userId : String)
    (description duration date : Option String) : ExResult :=
  if !jsTruthy description || !jsTruthy duration then
    ⟨.err 400 "Description and duration are required", store⟩
  else if !isValidObjectId userId then
    ⟨.err 400 "Invalid user ID format", store⟩
  else
    match findById store userId with
    | none => ⟨.err 404 "User not found", store⟩
    | some user =>
      match castExercise
          ⟨description.getD "", jsNumber (duration.getD ""),
            if jsTruthy date then parseJsDate (date.getD "") else some now⟩ with
      | none => ⟨.err 500 "Exercise validation failed: cast error", store⟩
      | some ex =>
        ⟨.ok 201 ⟨user._id, user.username, ex.description, ex.duration, toDateString ex.date⟩,
          saveUser store ⟨user._id, user.username, user.log ++ [ex]⟩⟩

/-- The `from` filter of the second get-logs variant (lines 354–357): no
validity check — `exercise.date >= fromDate` against an Invalid Date is
false, so an unparseable `from` filters out every entry. -/
def applyFrom2 (logs : List Exercise) (fromQ : Option String) : List Exercise :=
  if jsTruthy fromQ then
    logs.filter (fun e => jsGeB e.date (parseJsDate (fromQ.getD "")))
  else logs

/-- The `to` filter of the second get-logs variant (lines 359–362). -/
def applyTo2 (logs : List Exercise) (toQ : Option String) : List Exercise :=
  if jsTruthy toQ then
    logs.filter (fun e => jsLeB e.date (parseJsDate (toQ.getD "")))
  else logs

/-- The `limit` truncation of the second get-logs variant (lines
365–367): `slice(0, Number(limit))`, where a NaN end index becomes 0. -/
def applyLimit2 (logs : List Exercise) (limitQ : Option String) : List Exercise :=
  if jsTruthy limitQ then
    jsSlice0 logs (jsToIntegerOrZero (jsNumber (limitQ.getD "")))
  else logs

/-- Response formatting of the second get-logs variant (lines 370–374):
the duration is echoed as stored. -/
def formatEntry2 (e : Exercise) : LogEntryOut :=
  ⟨e.description, e.duration, toDateString e.date⟩

/-- Handler `GET /api/users/:_id/logs`, second variant (lines 336–386). -/
def getLogs2 (store : Store) (userId : String)
    (fromQ toQ limitQ : Option String) : LogsResult :=
  if !isValidObjectId userId then
    ⟨.err 400 "Invalid user ID format", store⟩
  else
    match findById store userId with
    | none => ⟨.err 404 "User not found", store⟩
    | some user =>
      let logs := applyLimit2 (applyTo2 (applyFrom2 user.log fromQ) toQ) limitQ
      let formattedLogs := logs.map formatEntry2
      ⟨.ok ⟨user._id, user.username, formattedLogs.length, formattedLogs⟩, store⟩

/-! ## Helper lemmas -/

theorem length_dropWhile_le_self {α : Type} (p : α → Bool) (l : List α) :
    (l.dropWhile p).length ≤ l.length := by
  induction l with
  | nil => simp
  | cons a l ih =>
    by_cases h : p a
    · simp [List.dropWhile_cons, h]
      omega
    · simp [List.dropWhile_cons, h]

theorem dropWhile_idem {α : Type} (p : α → Bool) (l : List α) :
    (l.dropWhile p).dropWhile p = l.dropWhile p := by
  induction l with
  | nil => rfl
  | cons a l ih =>
    by_cases h : p a <;> simp [List.dropWhile_cons, h, ih]

theorem dropWhile_eq_self_of_append {α : Type} (p : α → Bool) (l t l₂ : List α)
    (happ : l ++ t = l₂) (hself : l₂.dropWhile p = l₂) : l.dropWhile p = l := by
  cases l with
  | nil => rfl
  | cons a l' =>
    subst happ
    rw [List.cons_append, List.dropWhile_cons] at hself
    by_cases h : p a
    · exfalso
      rw [if_pos h] at hself
      have h1 := length_dropWhile_le_self p (l' ++ t)
      have h2 := congrArg List.length hself
      simp only [List.length_cons, List.length_append] at h1 h2
      omega
    · rw [List.dropWhile_cons, if_neg h]

theorem trimCharList_idem (l : List Char) :
    trimCharList (trimCharList l) = trimCharList l := by
  unfold trimCharList
  set A := l.dropWhile jsWhitespaceChar with hA
  have hAself : A.dropWhile jsWhitespaceChar = A := dropWhile_idem _ l
  set T := (A.reverse.dropWhile jsWhitespaceChar).reverse with hT
  have happ : T ++ (A.reverse.takeWhile jsWhitespaceChar).reverse = A := by
    rw [hT, ← List.reverse_append, List.takeWhile_append_dropWhile, List.reverse_reverse]
  have hTself : T.dropWhile jsWhitespaceChar = T :=
    dropWhile_eq_self_of_append _ _ _ _ happ hAself
  rw [hTself, hT, List.reverse_reverse, dropWhile_idem]

theorem jsTrim_idem (s : String) : jsTrim (jsTrim s) = jsTrim s := by
  unfold jsTrim
  exact congrArg String.mk (trimCharList_idem s.data)

theorem find?_map_replace (l : List User) (id : String) (u u' : User)
    (hu' : u'._id = id) :
    List.find? (fun v => v._id == id) l = some u →
    List.find? (fun v => v._id == id)
        (List.map (fun v => if v._id == u'._id then u' else v) l) = some u' := by
  induction l with
  | nil => intro h; simp at h
  | cons v rest ih =>
    intro h
    rw [List.find?_cons] at h
    rw [List.map_cons, List.find?_cons]
    by_cases hv : v._id = id
    · have hcond : (v._id == u'._id) = true := by simp [hv, hu']
      rw [hcond]
      have hp : (u'._id == id) = true := by simp [hu']
      simp [hp]
    · have hcond : (v._id == u'._id) = false := by simp [hv, hu']
      have hp : (v._id == id) = false := by simp [hv]
      rw [hp] at h
      simp only [hcond, Bool.false_eq_true, if_false, hp]
      exact ih h

theorem findById_eq_id (store : Store) (id : String) (u : User)
    (h : findById store id = some u) : u._id = id := by
  have := List.find?_some h
  simpa using this

theorem findById_saveUser (store : Store) (id : String) (u u' : User)
    (h : findById store id = some u) (hid : u'._id = u._id) :
    findById (saveUser store u') id = some u' := by
  have hu : u._id = id := findById_eq_id store id u h
  exact find?_map_replace store id u u' (hid.trans hu) h

theorem jsSlice0_of_nonneg {α : Type} (l : List α) (k : Int) (hk : 0 ≤ k) :
    jsSlice0 l k = l.take k.toNat := by
  unfold jsSlice0
  rw [if_neg (by omega)]
  by_cases h : k ≤ (l.length : Int)
  · rw [min_eq_left h]
  · rw [min_eq_right (le_of_not_le h)]
    have h1 : ((l.length : Int)).toNat = l.length := by omega
    have h2 : l.length ≤ k.toNat := by omega
    rw [h1, List.take_length, List.take_of_length_le h2]

theorem parseJsDate_empty : parseJsDate "" = none := rfl

theorem jsParseInt_empty : jsParseInt "" = none := rfl

theorem jsTruthy_of_parseJsDate (s : String) (x : Int)
    (h : parseJsDate s = some x) : jsTruthy (some s) = true := by
  by_cases hs : s = ""
  · subst hs; rw [parseJsDate_empty] at h; cases h
  · simp [jsTruthy, hs]

theorem jsTruthy_of_jsParseInt (s : String) (x : Int)
    (h : jsParseInt s = some x) : jsTruthy (some s) = true := by
  by_cases hs : s = ""
  · subst hs; rw [jsParseInt_empty] at h; cases h
  · simp [jsTruthy, hs]

/-! ## Claim C10: get-logs is read-only -/

/-- Claim C10. — Get-logs is read-only: in both handler variants, for every
get-logs request the store after the request — hence every stored user
document, including the requested user's log — is exactly the store
before it; the handlers issue no mutating store call. -/
theorem getLogs_read_only (store : Store) (userId : String)
    (fromQ toQ limitQ : Option String) :
    (getLogs store userId fromQ toQ limitQ).store = store ∧
    (getLogs2 store userId fromQ toQ limitQ).store = store := by
  refine ⟨?_, ?_⟩
  · unfold getLogs
    split
    · rfl
    · split <;> rfl
  · unfold getLogs2
    split
    · rfl
    · split <;> rfl

/-! ## Claim C9: validation precedes mutation -/

/-- Claim C9. — For every create-user or add-exercise request (first-variant
handlers, as cited) that fails with a 400 or 404 outcome, the store is
unchanged: all validation happens before the only mutating store call. -/
theorem no_mutation_on_client_error (store : Store) (freshId : String) (now : Int)
    (userId : String) (username description duration date : Option String) :
    ((createUser store freshId username).resp.statusOf = 400 ∨
        (createUser store freshId username).resp.statusOf = 404 →
      (createUser store freshId username).store = store) ∧
    ((addExercise store now userId description duration date).resp.statusOf = 400 ∨
        (addExercise store now userId description duration date).resp.statusOf = 404 →
      (addExercise store now userId description duration date).store = store) := by
  constructor
  · unfold createUser
    split
    · intro _; rfl
    · intro h; simp [CreateResp.statusOf] at h
  · unfold addExercise
    repeat' split
    all_goals intro h
    all_goals try rfl
    all_goals simp [ExResp.statusOf] at h

/-- Witness for C9 at concrete inputs: a blank-username create request
(400) and a malformed-id add-exercise request (400) both leave the
(empty) store empty. -/
theorem no_mutation_on_client_error_witness :
    (createUser [] "65a0b1c2d3e4f5a6b7c8d9e0" none).store = ([] : Store) ∧
    (addExercise [] 0 "not-an-id" (some "run") (some "30") none).store = ([] : Store) :=
  ⟨(no_mutation_on_client_error [] "65a0b1c2d3e4f5a6b7c8d9e0" 0 "not-an-id"
      none (some "run") (some "30") none).1 (Or.inl (by decide)),
   (no_mutation_on_client_error [] "65a0b1c2d3e4f5a6b7c8d9e0" 0 "not-an-id"
      none (some "run") (some "30") none).2 (Or.inl (by decide))⟩

/-! ## Claim C2: add-exercise identifier errors -/

/-- Claim C2. — For every add-exercise request (first variant) whose
description and duration are present and non-empty: a malformed user id
gives a 400 validation error, a well-formed id with no matching user
gives a 404, in both cases the store is untouched and the response is
never a 500. -/
theorem addExercise_id_errors (store : Store) (now : Int) (userId : String)
    (description duration date : Option String)
    (hdesc : jsTruthy description = true) (hdur : jsTruthy duration = true) :
    (isValidObjectId userId = false →
      (addExercise store now userId description duration date).resp
          = .err 400 "Invalid user ID format" ∧
      (addExercise store now userId description duration date).store = store ∧
      (addExercise store now userId description duration date).resp.statusOf ≠ 500) ∧
    (isValidObjectId userId = true → findById store userId = none →
      (addExercise store now userId description duration date).resp
          = .err 404 "User not found" ∧
      (addExercise store now userId description duration date).store = store ∧
      (addExercise store now userId description duration date).resp.statusOf ≠ 500) := by
  constructor
  · intro hid
    unfold addExercise
    simp [hdesc, hdur, hid, ExResp.statusOf]
  · intro hid hfind
    unfold addExercise
    simp [hdesc, hdur, hid, hfind, ExResp.statusOf]

/-- Witness for C2: a malformed id yields 400 and a well-formed id
absent from the store yields 404, with the store unchanged and no 500. -/
theorem addExercise_id_errors_witness :
    ((addExercise [] 0 "not-an-id" (some "run") (some "30") none).resp
        = .err 400 "Invalid user ID format" ∧
      (addExercise [] 0 "not-an-id" (some "run") (some "30") none).store = ([] : Store) ∧
      (addExercise [] 0 "not-an-id" (some "run") (some "30") none).resp.statusOf ≠ 500) ∧
    ((addExercise [] 0 "65a0b1c2d3e4f5a6b7c8d9e0" (some "run") (some "30") none).resp
        = .err 404 "User not found" ∧
      (addExercise [] 0 "65a0b1c2d3e4f5a6b7c8d9e0" (some "run") (some "30") none).store
        = ([] : Store) ∧
      (addExercise [] 0 "65a0b1c2d3e4f5a6b7c8d9e0"
          (some "run") (some "30") none).resp.statusOf ≠ 500) :=
  ⟨(addExercise_id_errors [] 0 "not-an-id" (some "run") (some "30") none
      (by decide) (by decide)).1 (by decide),
   (addExercise_id_errors [] 0 "65a0b1c2d3e4f5a6b7c8d9e0" (some "run") (some "30") none
      (by decide) (by decide)).2 (by decide) (by decide)⟩

/-! ## Claim C1: create-user username validation (corrected) -/

/-- Claim C1 (counterexample). — In the second create-user variant a
whitespace-only username — blank after trimming — does not fail with
400: the request succeeds (201) and a user whose username is the
untrimmed whitespace string is stored, contradicting the claim for
"every create-user request". -/
theorem createUser2_accepts_blank :
    (createUser2 [] "65a0b1c2d3e4f5a6b7c8d9e0" (some "   ")).resp
        = .ok 201 ⟨"65a0b1c2d3e4f5a6b7c8d9e0", "   "⟩ ∧
    (createUser2 [] "65a0b1c2d3e4f5a6b7c8d9e0" (some "   ")).store
        = [⟨"65a0b1c2d3e4f5a6b7c8d9e0", "   ", []⟩] ∧
    jsTrim "   " = "" := by
  exact ⟨rfl, rfl, rfl⟩

/-- Claim C1 (amended). — For every create-user request handled by the first
variant: if the username is absent or blank after trimming, the request
fails with a 400 validation error and the store is unchanged; if the
trimmed username is non-empty, the request succeeds and the persisted
username is the trimmed one, which has no leading or trailing
whitespace (trimming it again changes nothing).  (The second variant
rejects only absent/empty usernames and stores the username untrimmed.) -/
theorem createUser_username_validation (store : Store) (freshId : String)
    (username : Option String) :
    ((jsTruthy username = false ∨ jsTrim (username.getD "") = "") →
      (createUser store freshId username).resp = .err 400 "Username is required" ∧
      (createUser store freshId username).store = store) ∧
    (∀ s, username = some s → jsTrim s ≠ "" →
      (createUser store freshId username).resp = .ok 200 ⟨freshId, jsTrim s⟩ ∧
      (createUser store freshId username).store = store ++ [⟨freshId, jsTrim s, []⟩] ∧
      jsTrim (jsTrim s) = jsTrim s) := by
  constructor
  · intro h
    unfold createUser
    have hcond : (!jsTruthy username || jsTrim (username.getD "") == "") = true := by
      rcases h with h | h
      · simp [h]
      · simp [h]
    rw [if_pos hcond]
    exact ⟨rfl, rfl⟩
  · intro s hs htrim
    subst hs
    unfold createUser
    have hne : s ≠ "" := by
      intro hs0
      exact htrim (by rw [hs0]; rfl)
    rw [if_neg (by simp [jsTruthy, hne, htrim])]
    exact ⟨rfl, rfl, jsTrim_idem s⟩

/-- Witness for C1 (amended): a blank username is rejected without
storing, and `"  alice "` is stored as `"alice"`. -/
theorem createUser_username_validation_witness :
    ((createUser [] "65a0b1c2d3e4f5a6b7c8d9e0" (some " ")).resp
        = .err 400 "Username is required" ∧
      (createUser [] "65a0b1c2d3e4f5a6b7c8d9e0" (some " ")).store = ([] : Store)) ∧
    ((createUser [] "65a0b1c2d3e4f5a6b7c8d9e0" (some "  alice ")).resp
        = .ok 200 ⟨"65a0b1c2d3e4f5a6b7c8d9e0", "alice"⟩ ∧
      (createUser [] "65a0b1c2d3e4f5a6b7c8d9e0" (some "  alice ")).store
          = [⟨"65a0b1c2d3e4f5a6b7c8d9e0", "alice", []⟩] ∧
      jsTrim (jsTrim "  alice ") = jsTrim "  alice ") :=
  ⟨(createUser_username_validation [] "65a0b1c2d3e4f5a6b7c8d9e0" (some " ")).1
      (Or.inr (by decide)),
   by
     have h := (createUser_username_validation [] "65a0b1c2d3e4f5a6b7c8d9e0"
        (some "  alice ")).2 "  alice " rfl (by decide)
     have htrim : jsTrim "  alice " = "alice" := by decide
     rw [htrim] at h
     exact h⟩

/-! ## Claim C3: lenient query parameters (corrected) -/

theorem applyFrom_unparseable (logs : List Exercise) (s : String)
    (h : parseJsDate s = none) : applyFrom logs (some s) = logs := by
  unfold applyFrom
  by_cases hs : s = ""
  · subst hs; simp [jsTruthy]
  · simp [jsTruthy, hs, h]

theorem applyTo_unparseable (logs : List Exercise) (s : String)
    (h : parseJsDate s = none) : applyTo logs (some s) = logs := by
  unfold applyTo
  by_cases hs : s = ""
  · subst hs; simp [jsTruthy]
  · simp [jsTruthy, hs, h]

theorem applyLimit_unparseable (logs : List Exercise) (s : String)
    (h : jsParseInt s = none) : applyLimit logs (some s) = logs := by
  unfold applyLimit
  by_cases hs : s = ""
  · subst hs; simp [jsTruthy]
  · simp [jsTruthy, hs, h]

/-- Claim C3 (counterexample). — In the second get-logs variant an
unparseable `from` is not ignored: against a store holding one user with
one exercise, `from = "garbage"` produces a log of zero entries while
omitting `from` returns the single entry, so the two responses differ. -/
theorem getLogs2_unparseable_from_differs :
    (getLogs2 [⟨"aaaaaaaaaaaaaaaaaaaaaaaa", "alice", [⟨"run", 30, 1673740800000⟩]⟩]
        "aaaaaaaaaaaaaaaaaaaaaaaa" (some "garbage") none none).resp
      = .ok ⟨"aaaaaaaaaaaaaaaaaaaaaaaa", "alice", 0, []⟩ ∧
    (getLogs2 [⟨"aaaaaaaaaaaaaaaaaaaaaaaa", "alice", [⟨"run", 30, 1673740800000⟩]⟩]
        "aaaaaaaaaaaaaaaaaaaaaaaa" none none none).resp
      = .ok ⟨"aaaaaaaaaaaaaaaaaaaaaaaa", "alice", 1,
          [⟨"run", 30, "Sun Jan 15 2023"⟩]⟩ := by
  exact ⟨rfl, rfl⟩

/-- Claim C3 (amended). — In the first get-logs variant, for every request
on an existing user, an unparseable `from`, `to` or `limit` value is
silently ignored — the response equals the response with that parameter
omitted — and the response is a 200 success, never an error.  (In the
second variant an unparseable `from`/`to` excludes every log entry and
an unparseable `limit` truncates the log to empty.) -/
theorem getLogs_lenient_params (store : Store) (userId : String)
    (fromQ toQ limitQ : Option String) (user : User)
    (hid : isValidObjectId userId = true)
    (hfind : findById store userId = some user) :
    (∀ s, fromQ = some s → parseJsDate s = none →
      getLogs store userId fromQ toQ limitQ = getLogs store userId none toQ limitQ) ∧
    (∀ s, toQ = some s → parseJsDate s = none →
      getLogs store userId fromQ toQ limitQ = getLogs store userId fromQ none limitQ) ∧
    (∀ s, limitQ = some s → jsParseInt s = none →
      getLogs store userId fromQ toQ limitQ = getLogs store userId fromQ toQ none) ∧
    (getLogs store userId fromQ toQ limitQ).resp.statusOf = 200 := by
  refine ⟨?_, ?_, ?_, ?_⟩
  · intro s hs hparse
    subst hs
    unfold getLogs
    simp only [hid, Bool.not_true, Bool.false_eq_true, if_false, hfind,
      applyFrom_unparseable _ _ hparse]
    rfl
  · intro s hs hparse
    subst hs
    unfold getLogs
    simp only [hid, Bool.not_true, Bool.false_eq_true, if_false, hfind,
      applyTo_unparseable _ _ hparse]
    rfl
  · intro s hs hparse
    subst hs
    unfold getLogs
    simp only [hid, Bool.not_true, Bool.false_eq_true, if_false, hfind,
      applyLimit_unparseable _ _ hparse]
    rfl
  · unfold getLogs
    simp only [hid, Bool.not_true, Bool.false_eq_true, if_false, hfind]
    rfl

/-- Witness for C3 (amended): on a one-user store, `from = "garbage"`,
`to = "junk"` and `limit = "x"` each give the same response as omitting
the parameter, with status 200. -/
theorem getLogs_lenient_params_witness :
    (getLogs [⟨"aaaaaaaaaaaaaaaaaaaaaaaa", "alice", [⟨"run", 30, 1673740800000⟩]⟩]
        "aaaaaaaaaaaaaaaaaaaaaaaa" (some "garbage") none (some "x")
      = getLogs [⟨"aaaaaaaaaaaaaaaaaaaaaaaa", "alice", [⟨"run", 30, 1673740800000⟩]⟩]
        "aaaaaaaaaaaaaaaaaaaaaaaa" none none (some "x")) ∧
    (getLogs [⟨"aaaaaaaaaaaaaaaaaaaaaaaa", "alice", [⟨"run", 30, 1673740800000⟩]⟩]
        "aaaaaaaaaaaaaaaaaaaaaaaa" none (some "junk") none
      = getLogs [⟨"aaaaaaaaaaaaaaaaaaaaaaaa", "alice", [⟨"run", 30, 1673740800000⟩]⟩]
        "aaaaaaaaaaaaaaaaaaaaaaaa" none none none) ∧
    (getLogs [⟨"aaaaaaaaaaaaaaaaaaaaaaaa", "alice", [⟨"run", 30, 1673740800000⟩]⟩]
        "aaaaaaaaaaaaaaaaaaaaaaaa" none none (some "x")
      = getLogs [⟨"aaaaaaaaaaaaaaaaaaaaaaaa", "alice", [⟨"run", 30, 1673740800000⟩]⟩]
        "aaaaaaaaaaaaaaaaaaaaaaaa" none none none) ∧
    (getLogs [⟨"aaaaaaaaaaaaaaaaaaaaaaaa", "alice", [⟨"run", 30, 1673740800000⟩]⟩]
        "aaaaaaaaaaaaaaaaaaaaaaaa" (some "garbage") (some "junk") (some "x")).resp.statusOf
      = 200 :=
  ⟨(getLogs_lenient_params
      [⟨"aaaaaaaaaaaaaaaaaaaaaaaa", "alice", [⟨"run", 30, 1673740800000⟩]⟩]
      "aaaaaaaaaaaaaaaaaaaaaaaa" (some "garbage") none (some "x")
      ⟨"aaaaaaaaaaaaaaaaaaaaaaaa", "alice", [⟨"run", 30, 1673740800000⟩]⟩
      (by decide) rfl).1 "garbage" rfl (by decide),
   (getLogs_lenient_params
      [⟨"aaaaaaaaaaaaaaaaaaaaaaaa", "alice", [⟨"run", 30, 1673740800000⟩]⟩]
      "aaaaaaaaaaaaaaaaaaaaaaaa" none (some "junk") none
      ⟨"aaaaaaaaaaaaaaaaaaaaaaaa", "alice", [⟨"run", 30, 1673740800000⟩]⟩
      (by decide) rfl).2.1 "junk" rfl (by decide),
   (getLogs_lenient_params
      [⟨"aaaaaaaaaaaaaaaaaaaaaaaa", "alice", [⟨"run", 30, 1673740800000⟩]⟩]
      "aaaaaaaaaaaaaaaaaaaaaaaa" none none (some "x")
      ⟨"aaaaaaaaaaaaaaaaaaaaaaaa", "alice", [⟨"run", 30, 1673740800000⟩]⟩
      (by decide) rfl).2.2.1 "x" rfl (by decide),
   (getLogs_lenient_params
      [⟨"aaaaaaaaaaaaaaaaaaaaaaaa", "alice", [⟨"run", 30, 1673740800000⟩]⟩]
      "aaaaaaaaaaaaaaaaaaaaaaaa" (some "garbage") (some "junk") (some "x")
      ⟨"aaaaaaaaaaaaaaaaaaaaaaaa", "alice", [⟨"run", 30, 1673740800000⟩]⟩
      (by decide) rfl).2.2.2⟩

/-! ## Claim C4: date-range filtering -/

theorem applyFrom_parsed (logs : List Exercise) (s : String) (f : Int)
    (h : parseJsDate s = some f) :
    applyFrom logs (some s) = logs.filter (fun e => decide (f ≤ e.date)) := by
  unfold applyFrom
  rw [jsTruthy_of_parseJsDate s f h]
  simp [h]

theorem applyTo_parsed (logs : List Exercise) (s : String) (t : Int)
    (h : parseJsDate s = some t) :
    applyTo logs (some s) = logs.filter (fun e => decide (e.date ≤ t)) := by
  unfold applyTo
  rw [jsTruthy_of_parseJsDate s t h]
  simp [h]

/-- Claim C4. — For every get-logs request (first variant) on an existing
user where `from` and `to` both parse as valid dates and no limit is
given, the returned log is exactly the stored log filtered, in stored
order, to the entries with `from ≤ date` and `date ≤ to` — the closed
range `[from, to]`. -/
theorem getLogs_range_filter (store : Store) (userId fs ts : String) (f t : Int)
    (user : User) (hid : isValidObjectId userId = true)
    (hfind : findById store userId = some user)
    (hf : parseJsDate fs = some f) (ht : parseJsDate ts = some t) :
    (getLogs store userId (some fs) (some ts) none).resp =
      .ok ⟨user._id, user.username,
        ((user.log.filter (fun e => decide (f ≤ e.date) && decide (e.date ≤ t))).map
          formatEntry).length,
        (user.log.filter (fun e => decide (f ≤ e.date) && decide (e.date ≤ t))).map
          formatEntry⟩ := by
  unfold getLogs
  simp only [hid, Bool.not_true, Bool.false_eq_true, if_false, hfind]
  rw [applyFrom_parsed _ _ _ hf, applyTo_parsed _ _ _ ht]
  rw [List.filter_filter]
  rw [List.filter_congr (fun e _ => Bool.and_comm (decide (e.date ≤ t)) (decide (f ≤ e.date)))]
  rfl

/-- Witness for C4: of three stored entries only the middle one falls in
`[2023-01-10, 2023-01-20]` and it alone is returned. -/
theorem getLogs_range_filter_witness :
    (getLogs [⟨"aaaaaaaaaaaaaaaaaaaaaaaa", "alice",
        [⟨"a", 10, parseJsDate "2023-01-05" |>.getD 0⟩,
         ⟨"b", 20, parseJsDate "2023-01-15" |>.getD 0⟩,
         ⟨"c", 30, parseJsDate "2023-01-25" |>.getD 0⟩]⟩]
      "aaaaaaaaaaaaaaaaaaaaaaaa" (some "2023-01-10") (some "2023-01-20") none).resp =
      .ok ⟨"aaaaaaaaaaaaaaaaaaaaaaaa", "alice", 1,
        [⟨"b", 20, "Sun Jan 15 2023"⟩]⟩ :=
  (getLogs_range_filter
    [⟨"aaaaaaaaaaaaaaaaaaaaaaaa", "alice",
        [⟨"a", 10, parseJsDate "2023-01-05" |>.getD 0⟩,
         ⟨"b", 20, parseJsDate "2023-01-15" |>.getD 0⟩,
         ⟨"c", 30, parseJsDate "2023-01-25" |>.getD 0⟩]⟩]
    "aaaaaaaaaaaaaaaaaaaaaaaa" "2023-01-10" "2023-01-20"
    (parseJsDate "2023-01-10" |>.getD 0) (parseJsDate "2023-01-20" |>.getD 0)
    ⟨"aaaaaaaaaaaaaaaaaaaaaaaa", "alice",
        [⟨"a", 10, parseJsDate "2023-01-05" |>.getD 0⟩,
         ⟨"b", 20, parseJsDate "2023-01-15" |>.getD 0⟩,
         ⟨"c", 30, parseJsDate "2023-01-25" |>.getD 0⟩]⟩
    (by decide) rfl (by decide) (by decide)).trans (by decide)

/-! ## Claim C5: limit truncation and count -/

theorem applyLimit_parsed (logs : List Exercise) (s : String) (k : Int)
    (h : jsParseInt s = some k) (hk : 0 ≤ k) :
    applyLimit logs (some s) = logs.take k.toNat := by
  unfold applyLimit
  rw [jsTruthy_of_jsParseInt s k h]
  simp only [Option.getD_some, h, if_true]
  exact jsSlice0_of_nonneg logs k hk

/-- Claim C5. — For every get-logs request (first variant) on an existing
user: if `limit` parses to a non-negative integer `k`, the returned log
is the first `k` entries of the date-filtered sequence (all of it when
`k` exceeds its length, since `take` saturates); and in every successful
get-logs response, `count` equals the length of the returned log. -/
theorem getLogs_limit_truncates (store : Store) (userId ls : String) (k : Int)
    (fromQ toQ : Option String) (user : User)
    (hid : isValidObjectId userId = true)
    (hfind : findById store userId = some user)
    (hk : jsParseInt ls = some k) (hk0 : 0 ≤ k) :
    ((getLogs store userId fromQ toQ (some ls)).resp =
      .ok ⟨user._id, user.username,
        (((applyTo (applyFrom user.log fromQ) toQ).take k.toNat).map formatEntry).length,
        ((applyTo (applyFrom user.log fromQ) toQ).take k.toNat).map formatEntry⟩) ∧
    (∀ (fq tq lq : Option String) (body : LogsOut),
      (getLogs store userId fq tq lq).resp = .ok body → body.count = body.log.length) := by
  constructor
  · unfold getLogs
    simp only [hid, Bool.not_true, Bool.false_eq_true, if_false, hfind]
    rw [applyLimit_parsed _ _ _ hk hk0]
  · intro fq tq lq body h
    unfold getLogs at h
    simp only [hid, Bool.not_true, Bool.false_eq_true, if_false, hfind] at h
    cases h
    rfl

/-- Witness for C5: `limit = "2"` returns the first two of three
entries, and the response `count` is the log's length. -/
theorem getLogs_limit_truncates_witness :
    ((getLogs [⟨"aaaaaaaaaaaaaaaaaaaaaaaa", "alice",
        [⟨"a", 10, 0⟩, ⟨"b", 20, 86400000⟩, ⟨"c", 30, 172800000⟩]⟩]
      "aaaaaaaaaaaaaaaaaaaaaaaa" none none (some "2")).resp =
      .ok ⟨"aaaaaaaaaaaaaaaaaaaaaaaa", "alice", 2,
        [⟨"a", 10, "Thu Jan 01 1970"⟩, ⟨"b", 20, "Fri Jan 02 1970"⟩]⟩) ∧
    (∀ body : LogsOut,
      (getLogs [⟨"aaaaaaaaaaaaaaaaaaaaaaaa", "alice",
          [⟨"a", 10, 0⟩, ⟨"b", 20, 86400000⟩, ⟨"c", 30, 172800000⟩]⟩]
        "aaaaaaaaaaaaaaaaaaaaaaaa" none none none).resp = .ok body →
      body.count = body.log.length) := by
  have h := getLogs_limit_truncates
    [⟨"aaaaaaaaaaaaaaaaaaaaaaaa", "alice",
        [⟨"a", 10, 0⟩, ⟨"b", 20, 86400000⟩, ⟨"c", 30, 172800000⟩]⟩]
    "aaaaaaaaaaaaaaaaaaaaaaaa" "2" 2 none none
    ⟨"aaaaaaaaaaaaaaaaaaaaaaaa", "alice",
        [⟨"a", 10, 0⟩, ⟨"b", 20, 86400000⟩, ⟨"c", 30, 172800000⟩]⟩
    (by decide) rfl (by decide) (by decide)
  exact ⟨h.1.trans (by decide), fun body => h.2 none none none body⟩

/-! ## Claim C6: exercise date defaulting and validation (corrected) -/

/-- Claim C6 (counterexample). — The second add-exercise variant has no date
validation: with all other checks passed, an unparseable non-blank date
does not produce a 400 — the invalid date reaches `save`, whose Date
cast fails, reported as a 500 (nothing stored), contradicting the claim
for "every add-exercise request". -/
theorem addExercise2_unparseable_date_not_400 :
    (addExercise2 [⟨"aaaaaaaaaaaaaaaaaaaaaaaa", "alice", []⟩] 0
        "aaaaaaaaaaaaaaaaaaaaaaaa" (some "run") (some "30") (some "garbage")).resp
      = .err 500 "Exercise validation failed: cast error" ∧
    (addExercise2 [⟨"aaaaaaaaaaaaaaaaaaaaaaaa", "alice", []⟩] 0
        "aaaaaaaaaaaaaaaaaaaaaaaa" (some "run") (some "30") (some "garbage")).store
      = [⟨"aaaaaaaaaaaaaaaaaaaaaaaa", "alice", []⟩] := by
  exact ⟨rfl, rfl⟩

/-- Claim C6 (amended). — In the first add-exercise variant, for every
request that passed the field, identifier-format and existence checks:
if the date is absent or blank, the current date is used for the new
log entry (when the duration parses, the entry is appended with date
`now`); if the date is present, non-blank and unparseable, the request
fails with a 400 validation error and the store is unchanged.  (The
second variant lacks the 400 path: an unparseable date fails the save
with a 500.) -/
theorem addExercise_date_defaulting (store : Store) (now : Int) (userId : String)
    (dsc dur dateQ : Option String) (user : User)
    (hdesc : jsTruthy dsc = true) (hdur : jsTruthy dur = true)
    (hid : isValidObjectId userId = true)
    (hfind : findById store userId = some user) :
    ((jsTruthy dateQ = false ∨ jsTrim (dateQ.getD "") = "") →
      ∀ n : Int, jsParseInt (dur.getD "") = some n →
        addExercise store now userId dsc dur dateQ =
          ⟨.ok 200 ⟨user._id, user.username, dsc.getD "", (n : Rat), toDateString now⟩,
            saveUser store
              ⟨user._id, user.username, user.log ++ [⟨dsc.getD "", (n : Rat), now⟩]⟩⟩) ∧
    (∀ s, dateQ = some s → jsTrim s ≠ "" → parseJsDate s = none →
      addExercise store now userId dsc dur dateQ = ⟨.err 400 "Invalid date format", store⟩) := by
  constructor
  · intro hblank n hn
    unfold addExercise
    simp only [hdesc, hdur, hid, Bool.not_true, Bool.or_self, Bool.false_eq_true,
      if_false, hfind]
    have hcond : (jsTruthy dateQ && !(jsTrim (dateQ.getD "") == "")) = false := by
      rcases hblank with h | h
      · simp [h]
      · simp [h]
    rw [hcond]
    simp only [Bool.false_eq_true, if_false]
    simp [castExercise, hn]
  · intro s hs htrim hparse
    subst hs
    have hne : s ≠ "" := by
      intro hs0
      exact htrim (by rw [hs0]; rfl)
    unfold addExercise
    simp only [hdesc, hdur, hid, Bool.not_true, Bool.or_self, Bool.false_eq_true,
      if_false, hfind]
    have hcond : (jsTruthy (some s) && !(jsTrim ((some s).getD "") == "")) = true := by
      simp [jsTruthy, hne, htrim]
    rw [hcond]
    simp [hparse]

/-- Witness for C6 (amended): an absent date stores the entry at `now`,
and the non-blank unparseable date `"15/01/2023"` is rejected with 400,
store untouched. -/
theorem addExercise_date_defaulting_witness :
    (addExercise [⟨"aaaaaaaaaaaaaaaaaaaaaaaa", "alice", []⟩] 1673740800000
        "aaaaaaaaaaaaaaaaaaaaaaaa" (some "run") (some "30") none =
      ⟨.ok 200 ⟨"aaaaaaaaaaaaaaaaaaaaaaaa", "alice", "run", 30, "Sun Jan 15 2023"⟩,
        [⟨"aaaaaaaaaaaaaaaaaaaaaaaa", "alice", [⟨"run", 30, 1673740800000⟩]⟩]⟩) ∧
    (addExercise [⟨"aaaaaaaaaaaaaaaaaaaaaaaa", "alice", []⟩] 1673740800000
        "aaaaaaaaaaaaaaaaaaaaaaaa" (some "run") (some "30") (some "15/01/2023") =
      ⟨.err 400 "Invalid date format", [⟨"aaaaaaaaaaaaaaaaaaaaaaaa", "alice", []⟩]⟩) := by
  have h := addExercise_date_defaulting
    [⟨"aaaaaaaaaaaaaaaaaaaaaaaa", "alice", []⟩] 1673740800000
    "aaaaaaaaaaaaaaaaaaaaaaaa" (some "run") (some "30") none
    ⟨"aaaaaaaaaaaaaaaaaaaaaaaa", "alice", []⟩
    (by decide) (by decide) (by decide) rfl
  have h2 := addExercise_date_defaulting
    [⟨"aaaaaaaaaaaaaaaaaaaaaaaa", "alice", []⟩] 1673740800000
    "aaaaaaaaaaaaaaaaaaaaaaaa" (some "run") (some "30") (some "15/01/2023")
    ⟨"aaaaaaaaaaaaaaaaaaaaaaaa", "alice", []⟩
    (by decide) (by decide) (by decide) rfl
  refine ⟨(h.1 (Or.inl (by decide)) 30 (by decide)).trans (by decide), ?_⟩
  exact h2.2 "15/01/2023" rfl (by decide) (by decide)

/-! ## Claim C7: calendar-day round-trip -/

theorem toDateString_eq_of_same_day (t1 t2 : Int) (h : t1.fdiv dayMs = t2.fdiv dayMs) :
    toDateString t1 = toDateString t2 := by
  unfold toDateString
  rw [h]

theorem ratTrunc_intCast (n : Int) : ratTrunc ((n : Rat)) = n := by
  simp [ratTrunc, Rat.num_intCast, Rat.den_intCast, Int.tdiv_one]

/-- Claim C7. — For every add-exercise request (first variant) on an
existing user that supplies a valid date string parsing to timestamp
`t`: the response renders the date as `toDateString t`, the subsequent
no-filter get-logs response ends with an entry rendered `toDateString
t`, and `toDateString` depends only on the calendar day — timestamps
with equal day quotients render identically, and any `t` renders the
same as its day's UTC midnight — so the rendered day is unaffected by
any time-of-day component of the supplied or current time. -/
theorem exercise_date_roundtrip (store : Store) (now : Int) (userId ds : String)
    (dsc dur : Option String) (user : User) (t n : Int)
    (hdesc : jsTruthy dsc = true) (hdur : jsTruthy dur = true)
    (hid : isValidObjectId userId = true)
    (hfind : findById store userId = some user)
    (hds : jsTrim ds ≠ "") (ht : parseJsDate ds = some t)
    (hn : jsParseInt (dur.getD "") = some n) :
    ((addExercise store now userId dsc dur (some ds)).resp =
      .ok 200 ⟨user._id, user.username, dsc.getD "", (n : Rat), toDateString t⟩) ∧
    ((getLogs (addExercise store now userId dsc dur (some ds)).store userId
        none none none).resp =
      .ok ⟨user._id, user.username,
        ((user.log ++ [(⟨dsc.getD "", (n : Rat), t⟩ : Exercise)]).map formatEntry).length,
        (user.log ++ [(⟨dsc.getD "", (n : Rat), t⟩ : Exercise)]).map formatEntry⟩) ∧
    (((user.log ++ [(⟨dsc.getD "", (n : Rat), t⟩ : Exercise)]).map formatEntry).getLast? =
      some ⟨dsc.getD "", (n : Rat), toDateString t⟩) ∧
    (∀ t1 t2 : Int, t1.fdiv dayMs = t2.fdiv dayMs → toDateString t1 = toDateString t2) ∧
    toDateString t = toDateString (dayMs * (t.fdiv dayMs)) := by
  have hne : ds ≠ "" := by
    intro hs0
    exact hds (by rw [hs0]; rfl)
  have hadd : addExercise store now userId dsc dur (some ds) =
      ⟨.ok 200 ⟨user._id, user.username, dsc.getD "", (n : Rat), toDateString t⟩,
        saveUser store
          ⟨user._id, user.username, user.log ++ [(⟨dsc.getD "", (n : Rat), t⟩ : Exercise)]⟩⟩ := by
    unfold addExercise
    simp only [hdesc, hdur, hid, Bool.not_true, Bool.or_self, Bool.false_eq_true,
      if_false, hfind]
    have hcond : (jsTruthy (some ds) && !(jsTrim ((some ds).getD "") == "")) = true := by
      simp [jsTruthy, hne, hds]
    rw [hcond]
    simp only [if_true, Option.getD_some, ht]
    simp [castExercise, hn]
  refine ⟨?_, ?_, ?_, toDateString_eq_of_same_day, ?_⟩
  · rw [hadd]
  · rw [hadd]
    unfold getLogs
    have hfind' : findById
        (saveUser store ⟨user._id, user.username, user.log ++ [(⟨dsc.getD "", (n : Rat), t⟩ : Exercise)]⟩)
        userId = some ⟨user._id, user.username, user.log ++ [(⟨dsc.getD "", (n : Rat), t⟩ : Exercise)]⟩ :=
      findById_saveUser store userId user _ hfind rfl
    simp only [hid, Bool.not_true, Bool.false_eq_true, if_false, hfind']
    rfl
  · rw [List.map_append]
    simp only [List.map_cons, List.map_nil, List.getLast?_concat]
    simp only [formatEntry, ratTrunc_intCast]
  · exact toDateString_eq_of_same_day t (dayMs * (t.fdiv dayMs))
      (Int.mul_fdiv_cancel_left _ (by decide)).symm

/-- Witness for C7: supplying `"2023-01-15T13:45:10"` (with a
time-of-day component) stores an entry that get-logs renders as
`"Sun Jan 15 2023"`. -/
theorem exercise_date_roundtrip_witness :
    (getLogs (addExercise [⟨"aaaaaaaaaaaaaaaaaaaaaaaa", "alice", []⟩] 0
        "aaaaaaaaaaaaaaaaaaaaaaaa" (some "run") (some "30")
        (some "2023-01-15T13:45:10")).store
      "aaaaaaaaaaaaaaaaaaaaaaaa" none none none).resp =
      .ok ⟨"aaaaaaaaaaaaaaaaaaaaaaaa", "alice", 1, [⟨"run", 30, "Sun Jan 15 2023"⟩]⟩ := by
  have h := exercise_date_roundtrip [⟨"aaaaaaaaaaaaaaaaaaaaaaaa", "alice", []⟩] 0
    "aaaaaaaaaaaaaaaaaaaaaaaa" "2023-01-15T13:45:10" (some "run") (some "30")
    ⟨"aaaaaaaaaaaaaaaaaaaaaaaa", "alice", []⟩ 1673790310000 30
    (by decide) (by decide) (by decide) rfl (by decide) (by decide) (by decide)
  exact h.2.1.trans (by decide)

/-! ## Claim C8: integer durations (corrected) -/

/-- Claim C8 (counterexample). — The second add-exercise variant stores
`Number(duration)` as-is: with `duration = "4.7"` the request succeeds
and both the echoed and the stored duration are `47/10`, whose reduced
denominator is `10`, not `1` — not an integer, contradicting the claim
for "every successful add-exercise request". -/
theorem addExercise2_stores_fractional_duration :
    (addExercise2 [⟨"aaaaaaaaaaaaaaaaaaaaaaaa", "alice", []⟩] 0
        "aaaaaaaaaaaaaaaaaaaaaaaa" (some "run") (some "4.7") none).resp
      = .ok 201 ⟨"aaaaaaaaaaaaaaaaaaaaaaaa", "alice", "run", mkRat 47 10,
          "Thu Jan 01 1970"⟩ ∧
    (addExercise2 [⟨"aaaaaaaaaaaaaaaaaaaaaaaa", "alice", []⟩] 0
        "aaaaaaaaaaaaaaaaaaaaaaaa" (some "run") (some "4.7") none).store
      = [⟨"aaaaaaaaaaaaaaaaaaaaaaaa", "alice", [⟨"run", mkRat 47 10, 0⟩]⟩] ∧
    (mkRat 47 10).den = 10 := by
  exact ⟨rfl, rfl, rfl⟩

/-- Claim C8 (amended). — In the first add-exercise variant, every
successful request stores and echoes an integer duration: there is an
integer `k` with `parseInt(duration) = k` such that the response body's
duration is `k` and the user is saved with the entry `⟨description, k,
date⟩` appended to its log.  (The second variant can store a fractional
duration.) -/
theorem addExercise_duration_integer (store : Store) (now : Int) (userId : String)
    (dsc dur dateQ : Option String) (s : Nat) (body : ExerciseOut)
    (h : (addExercise store now userId dsc dur dateQ).resp = ExResp.ok s body) :
    ∃ (k : Int) (user : User) (t : Int),
      jsParseInt (dur.getD "") = some k ∧
      body.duration = (k : Rat) ∧
      findById store userId = some user ∧
      (addExercise store now userId dsc dur dateQ).store =
        saveUser store
          ⟨user._id, user.username, user.log ++ [⟨dsc.getD "", (k : Rat), t⟩]⟩ := by
  unfold addExercise at h ⊢
  revert h
  split
  · intro h; cases h
  · split
    · intro h; cases h
    · split
      · intro h; cases h
      · split
        · intro h; cases h
        · split
          · intro h; cases h
          · rename_i xu user hfind xd t hdate xc ex hcast
            intro h
            rcases hjp : jsParseInt (dur.getD "") with _ | k
            · rw [hjp] at hcast
              simp [castExercise] at hcast
            · rw [hjp] at hcast
              simp only [Option.map_some, castExercise] at hcast
              cases hcast
              cases h
              exact ⟨k, user, t, rfl, rfl, hfind, rfl⟩

/-- Witness for C8 (amended): `duration = "30"` is stored and echoed as
the integer 30. -/
theorem addExercise_duration_integer_witness :
    ∃ (k : Int) (user : User) (t : Int),
      jsParseInt "30" = some k ∧
      (⟨"aaaaaaaaaaaaaaaaaaaaaaaa", "alice", "run", 30, "Thu Jan 01 1970"⟩
          : ExerciseOut).duration = (k : Rat) ∧
      findById [⟨"aaaaaaaaaaaaaaaaaaaaaaaa", "alice", []⟩] "aaaaaaaaaaaaaaaaaaaaaaaa"
        = some user ∧
      (addExercise [⟨"aaaaaaaaaaaaaaaaaaaaaaaa", "alice", []⟩] 0
          "aaaaaaaaaaaaaaaaaaaaaaaa" (some "run") (some "30") none).store =
        saveUser [⟨"aaaaaaaaaaaaaaaaaaaaaaaa", "alice", []⟩]
          ⟨user._id, user.username, user.log ++ [⟨"run", (k : Rat), t⟩]⟩ :=
  addExercise_duration_integer [⟨"aaaaaaaaaaaaaaaaaaaaaaaa", "alice", []⟩] 0
    "aaaaaaaaaaaaaaaaaaaaaaaa" (some "run") (some "30") none 200
    ⟨"aaaaaaaaaaaaaaaaaaaaaaaa", "alice", "run", 30, "Thu Jan 01 1970"⟩ (by decide)

end ExerciseTracker
